import Mathlib

/-!
Shallow embedding of the modrinth_downloader client (src/main.py).

The Python program is an interactive client: a query compiler that turns a
free-text query with filter and sort words into the facets expression of
the remote search API, a navigation loop over screens (search, results,
project, version, message, error, quit), a quick-download release matcher,
and a chunked file download procedure.  The pure parts of each branch are
translated below as total functions; machine strings are modelled through
their character lists so that every definition reduces inside the kernel.
Network requests and responses are cut at the boundary: a gateway function
takes the decoded response data as an argument, and a step function reports
the request it would issue instead of performing it.  An uncaught Python
exception inside the main loop, which terminates the process, is modelled
as an error value of the step function.
-/

namespace Modrinth

/-! ### String primitives

Structural models of the Python string operations used by the program:
split on a single separator character (empty pieces are kept, as in the
Python str.split with an explicit separator), join, lower, startswith,
slicing, and decimal int parsing.
-/

/-- Split a character list on a separator character, keeping empty pieces. -/
def splitCharAux (sep : Char) : List Char → List Char → List (List Char)
  | [], acc => [acc.reverse]
  | c :: cs, acc =>
    if c = sep then acc.reverse :: splitCharAux sep cs []
    else splitCharAux sep cs (c :: acc)

/-- Split a string on a separator character, as the Python str.split with a
one-character separator argument. -/
def splitChar (sep : Char) (s : String) : List String :=
  (splitCharAux sep s.data []).map fun cs => ⟨cs⟩

/-- Model of query.split with a single space separator. -/
def splitOnSpace (s : String) : List String := splitChar ' ' s

/-- Model of the Python str.join. -/
def joinSep (sep : String) : List String → String
  | [] => ""
  | [w] => w
  | w :: ws => w ++ sep ++ joinSep sep ws

/-- Model of the Python str.lower, restricted to ASCII case mapping. -/
def strLower (s : String) : String := ⟨s.data.map Char.toLower⟩

/-- Model of the Python str.startswith. -/
def strStartsWith (p s : String) : Bool := p.data.isPrefixOf s.data

/-- Model of the Python slice s[n:]. -/
def strDrop (n : Nat) (s : String) : String := ⟨s.data.drop n⟩

/-- Model of the Python slice s[:n]. -/
def strTake (n : Nat) (s : String) : String := ⟨s.data.take n⟩

/-- Decimal value of a digit list. -/
def digitsToNat (cs : List Char) : Nat :=
  cs.foldl (fun n c => n * 10 + (c.toNat - 48)) 0

/-- Model of the Python int constructor on ASCII decimal literals: optional
surrounding spaces, an optional single sign, then at least one digit.  The
navigation claims only apply it to such inputs. -/
def pyInt (s : String) : Option Int :=
  let cs := ((s.data.dropWhile (fun c => c = ' ')).reverse.dropWhile (fun c => c = ' ')).reverse
  match cs with
  | [] => none
  | c :: rest =>
    if c = '-' then
      if !rest.isEmpty && rest.all Char.isDigit then some (-(digitsToNat rest : Int)) else none
    else if c = '+' then
      if !rest.isEmpty && rest.all Char.isDigit then some ((digitsToNat rest : Int)) else none
    else
      if (c :: rest).all Char.isDigit then some ((digitsToNat (c :: rest) : Int)) else none

/-- Model of os.path.split followed by taking the last component: the part
of the name after the final separator. -/
def basename (s : String) : String := ⟨(splitCharAux '/' s.data []).getLastD []⟩

/-- Model of os.path.join on POSIX paths. -/
def pathJoin (a b : String) : String := a ++ "/" ++ b

/-! ### Constants and filter vocabulary (src/main.py lines 66 to 113) -/

def PAGE_SIZE : Nat := 20

def VERSIONS_PAGE_SIZE : Nat := 15

def OUTPUT_DIRECTORY : String := "downloads"

def LOADERS : List String :=
  ["bukkit", "bungeecord", "canvas", "fabric", "folia", "forge", "iris", "liteloader",
   "modloader", "neoforge", "optifine", "paper", "purpur", "quilt", "rift", "spigot",
   "sponge", "vanilla", "velocity", "waterfall"]

def SORTING_RULES : List String :=
  ["relevance", "downloads", "follows", "newest", "updated"]

/-- The exact attribute table, in the insertion order of the Python dict:
the project types, one loader entry per loader, then the platform
attributes. -/
def ATTRIBUTES : List (String × String) :=
  [("+mod", "project_type:mod"),
   ("+resourcepack", "project_type:resourcepack"),
   ("+rp", "project_type:resourcepack"),
   ("+datapack", "project_type:datapack"),
   ("+dp", "project_type:datapack"),
   ("+modpack", "project_type:modpack"),
   ("+mp", "project_type:modpack"),
   ("+plugin", "project_type:plugin"),
   ("+shader", "project_type:shader")]
  ++ LOADERS.map (fun l => ("+" ++ l, "categories:" ++ l))
  ++ [("+server", "client_side!=required"),
      ("-server", "client_side:required"),
      ("+client", "server_side!=required"),
      ("-client", "server_side:required"),
      ("+serversupported", "server_side!=unsupported"),
      ("-serversupported", "server_side:unsupported"),
      ("+clientsupported", "client_side!=unsupported"),
      ("-clientsupported", "client_side:unsupported")]

/-- The parametric attribute table: each two-character prefix maps to the
clause prefix that the Python lambda prepends to the suffix argument. -/
def SPECIAL_ATTRIBUTES : List (String × String) :=
  [("+v", "versions:"), ("+t", "categories:"), ("-t", "categories!=")]

def FACETS : List (List String) :=
  [["mod", "resourcepack", "rp", "datapack", "dp", "modpack", "mp", "plugin", "shader"],
   LOADERS,
   ["server", "client", "serverside", "clientside", "serversupported", "clientsupported"],
   ["v"],
   ["t"]]

/-- Facet lookup from get_facet_index (src/main.py lines 143 to 150): the
token minus its sign, or its first character for parametric tokens, is
searched in each facet in order.  The none case is the internal fault in
which Python raises ValueError, caught by the surrounding handler of
search. -/
def get_facet_index (search_filter : String) : Option Nat :=
  (List.range FACETS.length).find? (fun i =>
    (FACETS.getD i []).contains (strDrop 1 search_filter) ||
    (FACETS.getD i []).contains (strTake 1 (strDrop 1 search_filter)))

/-- Exact lookup in the attribute table. -/
def lookupAttribute (w : String) : Option String :=
  (ATTRIBUTES.find? (fun p => p.1 == w)).map (fun p => p.2)

/-- Resolution of one filter word (src/main.py lines 409 to 419): the exact
attribute table first, then the first matching parametric prefix applied to
the remainder after the two-character prefix. -/
def resolveFilter (w : String) : Option String :=
  match lookupAttribute w with
  | some a => some a
  | none =>
    match SPECIAL_ATTRIBUTES.find? (fun p => strStartsWith p.1 w) with
    | some p => some (p.2 ++ strDrop 2 w)
    | none => none

/-! ### Error values and messages -/

/-- The single error class of the program; it carries a message string. -/
structure SearchResultsError where
  message : String

def invalidFilterMsg (w : String) : String :=
  "Invalid search filter \"" ++ w ++ "\"!\n"

/-- Message of the ValueError raised by get_facet_index; the Python code
wraps it in a full traceback before storing it. -/
def internalFilterMsg (w : String) : String :=
  "Internal Error: Invalid search filter \"" ++ w ++ "\"!"

def invalidSortMsg (r : String) : String :=
  "Invalid sorting rule \"" ++ r ++ "\"!\nValid rules: " ++ joinSep ", " SORTING_RULES ++ "\n"

def invalidActionMsg (a : String) : String :=
  "Invalid action \"" ++ a ++ "\"!\n"

def projectOutOfBoundsMsg (a : String) : String :=
  "Project index \"" ++ a ++ "\" out of bounds!\n"

def versionOutOfBoundsMsg (a : String) : String :=
  "Version index \"" ++ a ++ "\" out of bounds!\n"

def noVersionsMsg (a : String) : String :=
  "No versions matching \"" ++ a ++ "\" were found."

/-! ### Query compiler (the pure part of search, src/main.py lines 388 to 436) -/

/-- The request parameters that search assembles before the network call.
An empty facets list corresponds to the facets parameter being left out of
the request. -/
structure CompiledQuery where
  query : String
  offset : Nat
  limit : Nat
  index : Option String
  facets : List (List String)

/-- The filter words of a query: the words starting with a plus or minus
sign (src/main.py line 390). -/
def filtersOf (words : List String) : List String :=
  words.filter (fun w => strStartsWith "+" w || strStartsWith "-" w)

/-- The sort words of a query: the words starting with a slash. -/
def sortingRulesOf (words : List String) : List String :=
  words.filter (fun w => strStartsWith "/" w)

/-- The free-text part of a query: the remaining words joined with single
spaces, original order preserved (src/main.py line 392). -/
def searchTermOf (words : List String) : String :=
  joinSep " " (words.filter (fun w =>
    !(strStartsWith "+" w || strStartsWith "-" w) && !(strStartsWith "/" w)))

/-- Sort directive parsing (src/main.py lines 395 to 401), after the
more-than-one check has already passed: the first sort word minus its
slash must be in the fixed vocabulary. -/
def parseSortingRule (sortingRules : List String) : Except SearchResultsError (Option String) :=
  match sortingRules with
  | [] => .ok none
  | r :: _ =>
    let rule := strDrop 1 r
    if SORTING_RULES.contains rule then .ok (some rule)
    else .error ⟨invalidSortMsg rule⟩

/-- The filter loop of search (src/main.py lines 408 to 426): each positive
attribute is appended to the OR group of its facet among the first five
entries of the accumulator, each negative attribute is appended as a new
singleton group at the end of the accumulator. -/
def processFilters : List String → List (List String) → Except SearchResultsError (List (List String))
  | [], acc => .ok acc
  | w :: ws, acc =>
    match resolveFilter w with
    | none => .error ⟨invalidFilterMsg w⟩
    | some clause =>
      match get_facet_index w with
      | none => .error ⟨internalFilterMsg w⟩
      | some i =>
        if strStartsWith "+" w then
          processFilters ws (acc.set i (acc.getD i [] ++ [clause]))
        else
          processFilters ws (acc ++ [[clause]])

/-- The pure compilation part of search (src/main.py lines 388 to 436),
from the raw query string and page number to the request parameters, or to
the error value that search returns.  Empty facet groups are dropped at
the end (line 428). -/
def compileQuery (query : String) (page_number : Nat) : Except SearchResultsError CompiledQuery :=
  let words := splitOnSpace query
  let filters := filtersOf words
  let sortingRules := sortingRulesOf words
  let searchTerm := searchTermOf words
  if sortingRules.length > 1 then .error ⟨"More than 1 sorting rule found!\n"⟩
  else
    match parseSortingRule sortingRules with
    | .error e => .error e
    | .ok sortingRule =>
      match processFilters filters (List.replicate FACETS.length []) with
      | .error e => .error e
      | .ok facetsFormatted =>
        .ok { query := searchTerm
              offset := page_number * PAGE_SIZE
              limit := PAGE_SIZE
              index := sortingRule
              facets := facetsFormatted.filter (fun f => !f.isEmpty) }

/-! ### Result page counts (src/main.py lines 452 and 475) -/

/-- Page count of project search results: max(1, ceil(total_hits over
PAGE_SIZE)), with the ceiling written as exact natural arithmetic. -/
def search_page_count (total_hits : Nat) : Nat :=
  max 1 ((total_hits + PAGE_SIZE - 1) / PAGE_SIZE)

/-- Page count of a release listing: max(1, ceil(total_hits over
VERSIONS_PAGE_SIZE)). -/
def versions_page_count (total_hits : Nat) : Nat :=
  max 1 ((total_hits + VERSIONS_PAGE_SIZE - 1) / VERSIONS_PAGE_SIZE)

/-! ### Data model (src/main.py classes Project, VersionFile, Version,
SearchResults, VersionsSearchResults) -/

structure Project where
  project_id : String
  slug : String
  project_type : String
  name : String
  author : String
  description : String
  downloads : Nat
  follows : Nat
  categories : List String
  mc_versions : List String
  date_created : Int
  date_modified : Int
  project_license : String
  client_support : String
  server_support : String

/-- Derived loader list of a project (src/main.py line 186). -/
def Project.loaders (p : Project) : List String :=
  p.categories.filter (fun c => LOADERS.contains c)

/-- Derived tag list of a project (src/main.py line 187). -/
def Project.tags (p : Project) : List String :=
  p.categories.filter (fun c => !LOADERS.contains c)

structure VersionFile where
  url : String
  filename : String
  size : Nat
  primary : Bool

/-- Constructor of VersionFile (src/main.py line 288): the stored filename
is the basename of the server-provided name. -/
def mkVersionFile (url filename : String) (size : Nat) (primary : Bool) : VersionFile :=
  ⟨url, basename filename, size, primary⟩

def defaultVersionFile : VersionFile := ⟨"", "", 0, false⟩

structure Version where
  version_id : String
  version_type : String
  version_level : Nat
  version_number : String
  name : String
  downloads : Nat
  mc_versions : List String
  loaders : List String
  files : List VersionFile
  dependency_ids : List String
  project_id : String

def defaultVersion : Version := ⟨"", "", 0, "", "", 0, [], [], [], [], ""⟩

/-- File reordering done by the Version constructor (src/main.py lines 241
to 249): the first file marked primary is swapped to the front; when no
file is marked primary the first received file stays in place and is
treated as primary. -/
def reorderFiles (files : List VersionFile) : List VersionFile :=
  match files.findIdx? (fun f => f.primary) with
  | none => files
  | some 0 => files
  | some (i + 1) =>
    (files.set 0 (files.getD (i + 1) defaultVersionFile)).set (i + 1)
      (files.getD 0 defaultVersionFile)

def VERSION_LEVELS : List (String × Nat) := [("alpha", 0), ("beta", 1), ("release", 2)]

/-- Constructor of Version (src/main.py lines 225 to 251): the maturity
dictionary lookup and the access to the first file are the two ways the
Python constructor can raise, in which case from_json fails inside the
handler of get_versions; both are modelled by the none result. -/
def mkVersion (version_id version_type version_number name : String) (downloads : Nat)
    (mc_versions loaders : List String) (files : List VersionFile)
    (dependency_ids : List String) (project_id : String) : Option Version :=
  match (VERSION_LEVELS.find? (fun p => p.1 == version_type)).map (fun p => p.2),
        reorderFiles files with
  | some lvl, f :: fs =>
    some ⟨version_id, version_type, lvl, version_number, name, downloads, mc_versions,
          loaders, f :: fs, dependency_ids, project_id⟩
  | _, _ => none

/-- The primary file of a constructed version: the head of the reordered
file list (src/main.py line 251). -/
def Version.primary_file (v : Version) : VersionFile := v.files.headD defaultVersionFile

structure SearchResults where
  projects : List Project
  page_number : Nat
  page_count : Nat
  total_hits : Nat
  response_time_ms : Nat
  query : String

structure VersionsSearchResults where
  versions : List Version
  page_number : Nat
  page_count : Nat
  total_hits : Nat
  response_time_ms : Nat
  project : Project

/-- First release index shown on the current client-side page
(src/main.py line 349). -/
def VersionsSearchResults.start_index (r : VersionsSearchResults) : Nat :=
  r.page_number * VERSIONS_PAGE_SIZE

/-- One past the last release index shown on the current client-side page
(src/main.py line 352). -/
def VersionsSearchResults.end_index (r : VersionsSearchResults) : Nat :=
  min r.versions.length ((r.page_number + 1) * VERSIONS_PAGE_SIZE)

/-! ### Navigation pages and paging arithmetic -/

/-- The tagged page values of the main loop (src/main.py lines 485 to 493),
one constructor per page type; error and message pages carry the page to
return to. -/
inductive Page where
  | search : Page
  | results : SearchResults → Page
  | error : SearchResultsError → Page → Page
  | message : String → Page → Page
  | project : Project → VersionsSearchResults → SearchResults → Page
  | version : Version → Page → String → Page
  | quit : Page

/-- Next page index: the Python expression (p + 1) mod M with mathematical
integer remainder, which for positive M agrees with the Python operator. -/
def nextIndex (p M : Nat) : Nat := (((p : Int) + 1) % (M : Int)).toNat

/-- Previous page index: the Python expression (p - 1) mod M. -/
def prevIndex (p M : Nat) : Nat := (((p : Int) - 1) % (M : Int)).toNat

/-- Jump target index: the Python expression (n - 1) mod M on the
user-supplied one-based page number n. -/
def jumpIndex (n : Int) (M : Nat) : Nat := ((n - 1) % (M : Int)).toNat

def defaultProject : Project := ⟨"", "", "", "", "", "", 0, 0, [], [], 0, 0, "", "", ""⟩

/-- Outcome of one step of the results screen: either a completed
transition carrying the optional new_search pair that triggers a fresh
search request after the branch, or the selection of a project, which
issues the get_versions network call that is outside the pure model. -/
inductive ResultsOut where
  | transition : Page → Option (String × Nat) → ResultsOut
  | selectProject : Project → ResultsOut

/-- One step of the results screen branch of the main loop (src/main.py
lines 522 to 570). -/
def resultsStep (r : SearchResults) (action : String) : ResultsOut :=
  if strLower action = "q" then .transition Page.search none
  else if action = "<" then
    .transition (Page.results r) (some (r.query, prevIndex r.page_number r.page_count))
  else if action = ">" then
    .transition (Page.results r) (some (r.query, nextIndex r.page_number r.page_count))
  else if strStartsWith "p" (strLower action) then
    match pyInt (strDrop 1 action) with
    | none => .transition (Page.error ⟨invalidActionMsg action⟩ (Page.results r)) none
    | some n => .transition (Page.results r) (some (r.query, jumpIndex n r.page_count))
  else
    match pyInt action with
    | none => .transition (Page.error ⟨invalidActionMsg action⟩ (Page.results r)) none
    | some idx =>
      if idx < 0 || (r.projects.length : Int) ≤ idx then
        .transition (Page.error ⟨projectOutOfBoundsMsg action⟩ (Page.results r)) none
      else .selectProject (r.projects.getD idx.toNat defaultProject)

/-! ### Quick-download recognition (src/main.py lines 599 to 619) -/

/-- The recognizer loop: scan the space-separated words, recording at most
one version word (prefix letter v after lowering, remainder kept lowered as
the version constraint) and at most one lowered loader word; any other
word, a second version word or a second loader word disqualifies the whole
input, as does the absence of both.  Version classification is tested
before loader membership, so loader names starting with the letter v count
as version words. -/
def quickParseGo : List String → Option String → Option String →
    Option (Option String × Option String)
  | [], vf, lf => if vf.isNone && lf.isNone then none else some (vf, lf)
  | w :: ws, vf, lf =>
    if strStartsWith "v" (strLower w) then
      match vf with
      | some _ => none
      | none => quickParseGo ws (some (strDrop 1 (strLower w))) lf
    else if LOADERS.contains (strLower w) then
      match lf with
      | some _ => none
      | none => quickParseGo ws vf (some (strLower w))
    else none

/-- Recognition of a project-screen input as a quick-download request,
together with the parsed version and loader constraints. -/
def quickParse (action : String) : Option (Option String × Option String) :=
  quickParseGo (splitOnSpace action) none none

def isQuickDownload (action : String) : Bool := (quickParse action).isSome

/-- Version-word test of the recognizer, on one word. -/
def isVersionWord (w : String) : Bool := strStartsWith "v" (strLower w)

/-- Loader-word test of the recognizer, on one word: an exact lowered
loader name that is not already a version word. -/
def isLoaderWord (w : String) : Bool := !isVersionWord w && LOADERS.contains (strLower w)

/-- The recognition condition as the specification words it: every
space-separated word is a version word or a loader word, with at most one
of each and at least one of the two present. -/
def QuickSpec (action : String) : Prop :=
  (∀ w ∈ splitOnSpace action, isVersionWord w = true ∨ isLoaderWord w = true) ∧
  (splitOnSpace action).countP (fun w => isVersionWord w) ≤ 1 ∧
  (splitOnSpace action).countP (fun w => isLoaderWord w) ≤ 1 ∧
  1 ≤ (splitOnSpace action).countP (fun w => isVersionWord w) +
      (splitOnSpace action).countP (fun w => isLoaderWord w)

/-! ### Quick-download release matcher (src/main.py lines 644 to 656) -/

/-- An uncaught Python exception escaping the main loop; it terminates the
process. -/
inductive Crash where
  | attributeError : Crash

/-- Whether a release satisfies the optional version and loader
constraints (src/main.py lines 646 to 653). -/
def qualifies (v : Version) (version_filter loader_filter : Option String) : Bool :=
  (match version_filter with
   | none => true
   | some s => v.mc_versions.contains s) &&
  (match loader_filter with
   | none => true
   | some s => v.loaders.contains s)

/-- The matcher scan translated verbatim: the running best starts as None,
and for a qualifying release the comparison of version_level with the
version_level of the running best is evaluated even when the running best
is still None, which in Python raises AttributeError; that uncaught
exception is the error value. -/
def quickMatchGo (vf lf : Option String) : List Version → Option Version →
    Except Crash (Option Version)
  | [], m => .ok m
  | v :: rest, m =>
    if qualifies v vf lf then
      match m with
      | none => .error Crash.attributeError
      | some mv =>
        if v.version_level > mv.version_level then quickMatchGo vf lf rest (some v)
        else quickMatchGo vf lf rest (some mv)
    else quickMatchGo vf lf rest m

def quickMatch (versions : List Version) (vf lf : Option String) :
    Except Crash (Option Version) :=
  quickMatchGo vf lf versions none

/-! ### Project screen step (src/main.py lines 587 to 673) -/

/-- Outcome of a recognized quick-download action (src/main.py lines 643
to 660): run the matcher, then move to the version screen, to the no-match
message screen, or crash. -/
def quickOutcome (proj : Project) (vr : VersionsSearchResults) (parent : SearchResults)
    (action : String) (vf lf : Option String) : Except Crash (Page × Option (String × Nat)) :=
  match quickMatch vr.versions vf lf with
  | .error c => .error c
  | .ok none => .ok (Page.message (noVersionsMsg action) (Page.project proj vr parent), none)
  | .ok (some ver) => .ok (Page.version ver (Page.project proj vr parent) proj.slug, none)

/-- One step of the project screen branch of the main loop.  The branch
never issues a network request and never sets new_search; the optional
pair in the result is that always-absent new_search value.  An error
result is an uncaught exception terminating the process. -/
def projectStep (proj : Project) (vr : VersionsSearchResults) (parent : SearchResults)
    (action : String) : Except Crash (Page × Option (String × Nat)) :=
  if strLower action = "q" then .ok (Page.results parent, none)
  else if action = "<" then
    .ok (Page.project proj { vr with page_number := prevIndex vr.page_number vr.page_count }
           parent, none)
  else if action = ">" then
    .ok (Page.project proj { vr with page_number := nextIndex vr.page_number vr.page_count }
           parent, none)
  else if strStartsWith "p" (strLower action) then
    match pyInt (strDrop 1 action) with
    | none => .ok (Page.error ⟨invalidActionMsg action⟩ (Page.project proj vr parent), none)
    | some n =>
      .ok (Page.project proj { vr with page_number := jumpIndex n vr.page_count } parent, none)
  else
    match quickParse action with
    | some (vf, lf) => quickOutcome proj vr parent action vf lf
    | none =>
      match pyInt action with
      | none => .ok (Page.error ⟨invalidActionMsg action⟩ (Page.project proj vr parent), none)
      | some idx =>
        if idx < 0 || ((vr.end_index - vr.start_index : Nat) : Int) ≤ idx then
          .ok (Page.error ⟨versionOutOfBoundsMsg action⟩ (Page.project proj vr parent), none)
        else
          .ok (Page.version (vr.versions.getD (vr.start_index + idx.toNat) defaultVersion)
                 (Page.project proj vr parent) proj.slug, none)

/-! ### Download procedure (src/main.py lines 713 and 752 to 777) -/

/-- The download directory of a project slug (src/main.py line 713). -/
def versionDownloadDir (slug : String) : String := pathJoin OUTPUT_DIRECTORY slug

/-- The download-all branch as the ordered list of pairs of write target
and request url it performs, one per file of the release: the code opens
the local name of each file but fetches the url of the primary file for
every one of them (src/main.py lines 759 to 761). -/
def downloadAllRequests (v : Version) (slug : String) : List (String × String) :=
  v.files.map (fun f => (pathJoin (versionDownloadDir slug) f.filename, v.primary_file.url))

/-- The primary-download branch for comparison (src/main.py lines 729 and
733): one request, fetching the url of the primary file into its own
name. -/
def downloadPrimaryRequest (v : Version) (slug : String) : String × String :=
  (pathJoin (versionDownloadDir slug) v.primary_file.filename, v.primary_file.url)

/-! ### Specification-side decompositions used by the claims -/

/-- Specification-side description of the OR groups: only inclusive
filters contribute, each appended to the group of its facet among the
initial entries. -/
def posGroups : List String → List (List String) → List (List String)
  | [], acc => acc
  | w :: ws, acc =>
    if strStartsWith "+" w then
      match resolveFilter w, get_facet_index w with
      | some clause, some i => posGroups ws (acc.set i (acc.getD i [] ++ [clause]))
      | _, _ => posGroups ws acc
    else posGroups ws acc

/-- Specification-side list of exclusion clauses, one per exclusive filter
word, in original order. -/
def negClauses (filters : List String) : List String :=
  filters.filterMap (fun w => if strStartsWith "+" w then none else resolveFilter w)

/-! ### Concrete values used by witnesses and counterexamples -/

def fileA : VersionFile := ⟨"https://cdn.example.org/a.jar", "a.jar", 100, true⟩

def fileU1 : VersionFile := ⟨"https://cdn.example.org/u1.jar", "u1.jar", 5, true⟩

def fileU2 : VersionFile := ⟨"https://cdn.example.org/u2.jar", "u2.jar", 7, false⟩

def stableRel120 : Version :=
  ⟨"vid1", "release", 2, "1.0.0", "Stable build", 10, ["1.20"], ["fabric"], [fileA], [], "proj1"⟩

def betaRel120 : Version :=
  ⟨"vid2", "beta", 1, "1.1.0-beta", "Beta build", 5, ["1.20"], ["fabric"], [fileA], [], "proj1"⟩

def twoFileVersion : Version :=
  ⟨"vid3", "release", 2, "2.0.0", "Two files", 3, ["1.20"], ["fabric"], [fileU1, fileU2], [],
   "proj1"⟩

def projDemo : Project :=
  ⟨"proj1", "coolmod", "mod", "Cool Mod", "someone", "a mod", 100, 10,
   ["fabric", "adventure"], ["1.20"], 0, 0, "MIT", "required", "optional"⟩

def parentDemo : SearchResults := ⟨[projDemo], 0, 1, 1, 12, "cool"⟩

def vrDemo : VersionsSearchResults := ⟨[stableRel120], 0, 1, 1, 12, projDemo⟩

def vrEmpty : VersionsSearchResults := ⟨[], 0, 1, 0, 12, projDemo⟩

def cqServerClient : CompiledQuery :=
  ⟨"", 0, 20, none, [["client_side!=required"], ["server_side:required"]]⟩

def rWitness : SearchResults := ⟨[], 2, 3, 41, 12, "stuff"⟩

def vrWitness : VersionsSearchResults := ⟨[], 0, 4, 50, 12, projDemo⟩


/-! ### Helper lemmas -/

theorem natCast_mod_int (n m : Nat) : ((n % m : Nat) : Int) = (n : Int) % (m : Int) := by
  push_cast
  ring_nf

theorem nextIndex_emod (p M : Nat) (hM : 1 ≤ M) :
    (nextIndex p M : Int) = ((p : Int) + 1) % (M : Int) := by
  have hne : (M : Int) ≠ 0 := by exact_mod_cast Nat.one_le_iff_ne_zero.mp hM
  exact Int.toNat_of_nonneg (Int.emod_nonneg _ hne)

theorem prevIndex_emod (p M : Nat) (hM : 1 ≤ M) :
    (prevIndex p M : Int) = ((p : Int) - 1) % (M : Int) := by
  have hne : (M : Int) ≠ 0 := by exact_mod_cast Nat.one_le_iff_ne_zero.mp hM
  exact Int.toNat_of_nonneg (Int.emod_nonneg _ hne)

theorem nextIndex_wrap (M : Nat) (hM : 1 ≤ M) : nextIndex (M - 1) M = 0 := by
  unfold nextIndex
  have h1 : ((M - 1 : Nat) : Int) + 1 = (M : Int) := by omega
  rw [h1, Int.emod_self]
  rfl

theorem prevIndex_wrap (M : Nat) (hM : 1 ≤ M) : prevIndex 0 M = M - 1 := by
  unfold prevIndex
  rw [Nat.cast_zero]
  have h3 : ((0 : Int) - 1) = (M : Int) - 1 + (M : Int) * (-1) := by ring
  rw [h3, Int.add_mul_emod_self_left, Int.emod_eq_of_lt (by omega) (by omega)]
  omega

/-- Claim C8: the page count is max(1, ceil(total_hits over the page
size)) for both the project search, page size 20, and the release
listing, page size 15; a zero-hit result reports exactly one page.  The
two general conjuncts characterize the computed value as the least k at
least 1 with total_hits at most size times k, which is exactly that
maximum of 1 and the ceiling. -/
theorem c8_page_count :
    search_page_count 0 = 1 ∧ versions_page_count 0 = 1 ∧
    (∀ n k, search_page_count n ≤ k ↔ 1 ≤ k ∧ n ≤ PAGE_SIZE * k) ∧
    (∀ n k, versions_page_count n ≤ k ↔ 1 ≤ k ∧ n ≤ VERSIONS_PAGE_SIZE * k) := by
  refine ⟨rfl, rfl, fun n k => ?_, fun n k => ?_⟩ <;>
    simp only [search_page_count, versions_page_count, PAGE_SIZE, VERSIONS_PAGE_SIZE,
      max_le_iff] <;> omega


theorem get_facet_index_lt (w : String) (i : Nat) (h : get_facet_index w = some i) :
    i < FACETS.length := by
  have hm := List.mem_of_find?_eq_some h
  exact List.mem_range.mp hm

theorem processFilters_append (ws : List String) :
    ∀ (gs es out : List (List String)), gs.length = FACETS.length →
      processFilters ws (gs ++ es) = .ok out →
      out = posGroups ws gs ++ (es ++ (negClauses ws).map (fun c => [c])) := by
  induction ws with
  | nil =>
    intro gs es out _ h
    simp only [processFilters] at h
    cases h
    simp [posGroups, negClauses]
  | cons w ws ih =>
    intro gs es out hlen h
    simp only [processFilters] at h
    cases hr : resolveFilter w with
    | none => simp [hr] at h
    | some clause =>
      simp only [hr] at h
      cases hf : get_facet_index w with
      | none => simp [hf] at h
      | some i =>
        simp only [hf] at h
        have hi : i < gs.length := hlen ▸ get_facet_index_lt w i hf
        by_cases hp : strStartsWith "+" w = true
        · rw [if_pos hp] at h
          rw [List.getD_append _ _ _ _ hi, List.set_append_left _ _ hi] at h
          have := ih (gs.set i (gs.getD i [] ++ [clause])) es out
            (by rw [List.length_set]; exact hlen) h
          rw [this]
          simp [posGroups, negClauses, hp, hr, hf, List.filterMap_cons]
        · rw [if_neg hp] at h
          rw [List.append_assoc] at h
          have := ih gs (es ++ [[clause]]) out hlen h
          rw [this]
          simp [posGroups, negClauses, hp, hr, List.filterMap_cons, List.append_assoc]


/-- Claim C5: for every query that compiles, the facets expression is
the list of nonempty inclusive OR groups followed by one singleton group
per exclusive filter, in original order: an exclusive filter is never
merged into the OR group of its category nor with any other exclusive
filter. -/
theorem c5_exclusive_singletons (q : String) (pn : Nat) (cq : CompiledQuery)
    (h : compileQuery q pn = .ok cq) :
    cq.facets =
      (posGroups (filtersOf (splitOnSpace q)) (List.replicate FACETS.length [])).filter
          (fun f => !f.isEmpty)
        ++ (negClauses (filtersOf (splitOnSpace q))).map (fun c => [c]) := by
  unfold compileQuery at h
  by_cases hs : (sortingRulesOf (splitOnSpace q)).length > 1
  · rw [if_pos hs] at h; cases h
  · rw [if_neg hs] at h
    cases hr : parseSortingRule (sortingRulesOf (splitOnSpace q)) with
    | error e => rw [hr] at h; cases h
    | ok sr =>
      rw [hr] at h
      cases hp : processFilters (filtersOf (splitOnSpace q)) (List.replicate FACETS.length []) with
      | error e => rw [hp] at h; cases h
      | ok fac =>
        rw [hp] at h
        cases h
        have hd := processFilters_append (filtersOf (splitOnSpace q))
          (List.replicate FACETS.length []) [] fac (by simp)
          (by rw [List.append_nil]; exact hp)
        rw [hd]
        rw [List.nil_append, List.filter_append]
        rw [List.filter_map]
        have hpred : ((fun f => !f.isEmpty) ∘ fun c : String => [c]) = fun _ => true := rfl
        rw [hpred, List.filter_true]


theorem quickParseGo_isSome (ws : List String) :
    ∀ (vf lf : Option String),
      (quickParseGo ws vf lf).isSome = true ↔
        ((∀ w ∈ ws, isVersionWord w = true ∨ isLoaderWord w = true) ∧
         ws.countP (fun w => isVersionWord w) + (if vf.isSome then 1 else 0) ≤ 1 ∧
         ws.countP (fun w => isLoaderWord w) + (if lf.isSome then 1 else 0) ≤ 1 ∧
         (vf.isSome = true ∨ lf.isSome = true ∨
           1 ≤ ws.countP (fun w => isVersionWord w) + ws.countP (fun w => isLoaderWord w))) := by
  induction ws with
  | nil =>
    intro vf lf
    cases vf <;> cases lf <;>
      simp [quickParseGo, List.countP_nil]
  | cons w ws ih =>
    intro vf lf
    by_cases hv : strStartsWith "v" (strLower w) = true
    · have hvw : isVersionWord w = true := hv
      have hlw : isLoaderWord w = false := by
        simp only [isLoaderWord, hvw]
        rfl
      cases vf with
      | some s =>
        simp only [quickParseGo, if_pos hv]
        simp [List.countP_cons, hvw, hlw]
      | none =>
        simp only [quickParseGo, if_pos hv]
        rw [ih]
        simp [List.countP_cons, List.forall_mem_cons, hvw, hlw]
        intro h1 h2 h3
        omega
    · have hvw : isVersionWord w = false := by
        rw [isVersionWord]
        exact Bool.eq_false_iff.mpr hv
      by_cases hl : LOADERS.contains (strLower w) = true
      · have hlw : isLoaderWord w = true := by
          rw [isLoaderWord, hvw, hl]
          rfl
        cases lf with
        | some s =>
          simp only [quickParseGo, if_neg hv, if_pos hl]
          simp [List.countP_cons, hvw, hlw]
        | none =>
          simp only [quickParseGo, if_neg hv, if_pos hl]
          rw [ih]
          simp [List.countP_cons, List.forall_mem_cons, hvw, hlw]
          intro h1 h2 h3
          omega
      · have hlw : isLoaderWord w = false := by
          rw [isLoaderWord, hvw, Bool.eq_false_iff.mpr hl]
          rfl
        simp only [quickParseGo, if_neg hv, if_neg hl]
        simp [List.forall_mem_cons, hvw, hlw]

/-- Claim C6: an input on the project screen is recognized as a
quick-download request iff every space-separated word is a version word
or a loader word, with at most one of each and at least one of the two
present. -/
theorem c6_quick_recognizer_iff (action : String) :
    isQuickDownload action = true ↔ QuickSpec action := by
  unfold isQuickDownload quickParse QuickSpec
  rw [quickParseGo_isSome]
  simp


/-- Claim C1 (code bug): on the specification test input, a stable and a
beta release both matching version 1.20, the Release Matcher is expected
to return the stable release; the translated scan instead evaluates the
maturity of its running best while that is still None and raises
AttributeError.  The second conjunct shows that the zero-qualifier path,
reporting no match, does work. -/
theorem c1_release_matcher_crash :
    quickMatch [stableRel120, betaRel120] (some "1.20") none = .error Crash.attributeError ∧
    quickMatch [] (some "1.20") none = .ok none := ⟨rfl, rfl⟩

/-- Claim C2 (code bug): the claim states that no error path terminates
the process.  The quick-download branch of the project screen is not
covered by any handler: on the recognized input fabric, with one
qualifying release listed, the step produces the uncaught AttributeError
crash, so the process terminates outside the Quit state. -/
theorem c2_crash_escapes_main_loop :
    projectStep projDemo vrDemo parentDemo "fabric" = .error Crash.attributeError ∧
    isQuickDownload "fabric" = true := ⟨rfl, rfl⟩

/-- Claim C3 (code bug): download-all performs one download per file and
writes each file to its own local name, but every request fetches the url
of the primary file: for a release with two files with distinct urls, the
second local file receives the bytes of the first url. -/
theorem c3_download_all_uses_primary_url :
    downloadAllRequests twoFileVersion "coolmod" =
      [("downloads/coolmod/u1.jar", "https://cdn.example.org/u1.jar"),
       ("downloads/coolmod/u2.jar", "https://cdn.example.org/u1.jar")] ∧
    fileU2.url = "https://cdn.example.org/u2.jar" ∧
    ¬ fileU2.url = "https://cdn.example.org/u1.jar" := by
  refine ⟨rfl, rfl, ?_⟩
  decide

/-- Claim C4 counterexample: compiling the query foo +mod +rp -dp
/downloads does not succeed as the claim states; the word -dp resolves to
no attribute, since project kinds cannot be excluded, and compilation
returns the invalid-filter error naming it. -/
theorem c4_counterexample :
    compileQuery "foo +mod +rp -dp /downloads" 0 =
      .error ⟨"Invalid search filter \"-dp\"!\n"⟩ := rfl

/-- Claim C4 amended: compiling foo +mod +rp -dp /downloads fails with
the invalid search filter error naming -dp; with the unsupported
exclusion removed, the query foo +mod +rp /downloads compiles to free
text foo, one project-kind OR group holding the mod and resourcepack
clauses, and the downloads sort directive. -/
theorem c4_amended :
    compileQuery "foo +mod +rp -dp /downloads" 0 =
      .error ⟨"Invalid search filter \"-dp\"!\n"⟩ ∧
    compileQuery "foo +mod +rp /downloads" 0 =
      .ok ⟨"foo", 0, 20, some "downloads",
           [["project_type:mod", "project_type:resourcepack"]]⟩ := ⟨rfl, rfl⟩

/-- Witness for claim C5 at the query +server -client: one inclusive
and one exclusive filter of the same platform category produce two
separate groups. -/
theorem c5_witness :
    cqServerClient.facets =
      (posGroups (filtersOf (splitOnSpace "+server -client")) (List.replicate FACETS.length [])).filter
          (fun f => !f.isEmpty)
        ++ (negClauses (filtersOf (splitOnSpace "+server -client"))).map (fun c => [c]) :=
  c5_exclusive_singletons "+server -client" 0 cqServerClient rfl

/-- Claim C7 counterexample: the input paper is recognized by the
quick-download recognizer, but the project screen dispatches it to the
jump-to-page branch, tested earlier because the word starts with the
letter p, and the step ends on an error screen instead of invoking the
matcher. -/
theorem c7_counterexample :
    isQuickDownload "paper" = true ∧
    projectStep projDemo vrDemo parentDemo "paper" =
      .ok (Page.error ⟨"Invalid action \"paper\"!\n"⟩ (Page.project projDemo vrDemo parentDemo),
           none) := ⟨rfl, rfl⟩

/-- Claim C7 amended: a recognized quick-download input invokes the
Release Matcher, provided it is not captured by one of the earlier
dispatch branches; among recognized inputs only those whose lowered form
starts with the letter p, the loaders paper and purpur, are captured
earlier. -/
theorem c7_amended (proj : Project) (vr : VersionsSearchResults) (parent : SearchResults)
    (action : String) (vf lf : Option String)
    (hrec : quickParse action = some (vf, lf))
    (hq : strLower action ≠ "q") (hlt : action ≠ "<") (hgt : action ≠ ">")
    (hp : strStartsWith "p" (strLower action) = false) :
    projectStep proj vr parent action = quickOutcome proj vr parent action vf lf := by
  unfold projectStep
  rw [if_neg hq, if_neg hlt, if_neg hgt, if_neg (by rw [hp]; intro h; cases h), hrec]

/-- Witness for the amended claim C7 at the input fabric. -/
theorem c7_witness :
    projectStep projDemo vrEmpty parentDemo "fabric" =
      quickOutcome projDemo vrEmpty parentDemo "fabric" none (some "fabric") :=
  c7_amended projDemo vrEmpty parentDemo "fabric" none (some "fabric") rfl
    (by decide) (by decide) (by decide) rfl

/-- Claim C9: the next and previous page commands compute (p + 1) mod M
and (p - 1) mod M on both the results screen and the project screen;
moving forward from the last page wraps to page 0 and moving backward
from page 0 wraps to the last page. -/
theorem c9_page_wrap (r : SearchResults) (proj : Project) (vr : VersionsSearchResults)
    (parent : SearchResults) (hM : 1 ≤ r.page_count) (_hp : r.page_number < r.page_count)
    (hM2 : 1 ≤ vr.page_count) (_hp2 : vr.page_number < vr.page_count) :
    resultsStep r ">" = ResultsOut.transition (Page.results r)
        (some (r.query, nextIndex r.page_number r.page_count)) ∧
    resultsStep r "<" = ResultsOut.transition (Page.results r)
        (some (r.query, prevIndex r.page_number r.page_count)) ∧
    (nextIndex r.page_number r.page_count : Int) =
      ((r.page_number : Int) + 1) % (r.page_count : Int) ∧
    (prevIndex r.page_number r.page_count : Int) =
      ((r.page_number : Int) - 1) % (r.page_count : Int) ∧
    (r.page_number = r.page_count - 1 → nextIndex r.page_number r.page_count = 0) ∧
    (r.page_number = 0 → prevIndex r.page_number r.page_count = r.page_count - 1) ∧
    projectStep proj vr parent ">" =
      .ok (Page.project proj { vr with page_number := nextIndex vr.page_number vr.page_count }
             parent, none) ∧
    projectStep proj vr parent "<" =
      .ok (Page.project proj { vr with page_number := prevIndex vr.page_number vr.page_count }
             parent, none) ∧
    (vr.page_number = vr.page_count - 1 → nextIndex vr.page_number vr.page_count = 0) ∧
    (vr.page_number = 0 → prevIndex vr.page_number vr.page_count = vr.page_count - 1) := by
  refine ⟨rfl, rfl, nextIndex_emod _ _ hM, prevIndex_emod _ _ hM,
    fun h => ?_, fun h => ?_, rfl, rfl, fun h => ?_, fun h => ?_⟩
  · rw [h]; exact nextIndex_wrap _ hM
  · rw [h]; exact prevIndex_wrap _ hM
  · rw [h]; exact nextIndex_wrap _ hM2
  · rw [h]; exact prevIndex_wrap _ hM2

/-- Witness for claim C9: a results page 2 of 3 wraps forward to page
0, and a project release page 0 of 4 wraps backward to page 3. -/
theorem c9_witness :
    resultsStep rWitness ">" = ResultsOut.transition (Page.results rWitness)
        (some ("stuff", 0)) ∧
    prevIndex 0 4 = 3 := by
  have h := c9_page_wrap rWitness projDemo vrWitness parentDemo (by decide) (by decide)
    (by decide) (by decide)
  exact ⟨h.1.trans rfl, h.2.2.2.2.2.2.2.2.2 rfl⟩

/-- Claim C10: on the project screen the three page navigation inputs
only update the local page cursor of the already fetched release list:
the release list, the project and the parent results are unchanged, and
the new_search component of the result stays none, so no search request
is issued; the step function of this screen issues no request of any
kind, matching the source branch, which contains no network call. -/
theorem c10_local_paging (proj : Project) (vr : VersionsSearchResults) (parent : SearchResults)
    (action : String) :
    (action = "<" →
      projectStep proj vr parent action =
        .ok (Page.project proj { vr with page_number := prevIndex vr.page_number vr.page_count }
               parent, none)) ∧
    (action = ">" →
      projectStep proj vr parent action =
        .ok (Page.project proj { vr with page_number := nextIndex vr.page_number vr.page_count }
               parent, none)) ∧
    (∀ k : Int, strStartsWith "p" (strLower action) = true →
      pyInt (strDrop 1 action) = some k →
      projectStep proj vr parent action =
        .ok (Page.project proj { vr with page_number := jumpIndex k vr.page_count }
               parent, none)) := by
  refine ⟨fun h => by rw [h]; rfl, fun h => by rw [h]; rfl, fun k hpfx hparse => ?_⟩
  unfold projectStep
  rw [if_neg (fun he => by rw [he] at hpfx; cases hpfx),
      if_neg (fun he => by rw [he] at hpfx; cases hpfx),
      if_neg (fun he => by rw [he] at hpfx; cases hpfx),
      if_pos hpfx, hparse]

/-- Witness for claim C10 at the jump input p3. -/
theorem c10_witness :
    projectStep projDemo vrWitness parentDemo "p3" =
      .ok (Page.project projDemo { vrWitness with page_number := jumpIndex 3 vrWitness.page_count }
             parentDemo, none) :=
  (c10_local_paging projDemo vrWitness parentDemo "p3").2.2 3 rfl rfl

end Modrinth
